import Mathlib

/-! Formal model of the respiratory-infection surveillance report generator
(`app.py`): record normalization (`carregar_dados`), influenza subtype
classification (`classificar_influenza_subtipos`), age parsing
(`extrair_valor_idade`), RSV / SARS-CoV-2 positivity, period partitioning
(the window filter in `main`), facility prefix matching and the facility
table emphasis rule (`criar_tabelas_unidades_sanitarias`).

Python strings are modelled as `List Char`; pandas cells as the `Cell` type,
where `Cell.num q` stands for any cell whose `float(...)` conversion succeeds
with the comparable number `q`, `Cell.txt s` for non-numeric text, `Cell.dt d`
for a date-parseable cell (dates as integers) and `Cell.na` for a missing
value (`NaN`). `float` values that never compare true against the cycle
threshold (`nan`) are absorbed into the failing-conversion case, since the
classifier only observes the comparison `ct < 40`. -/

/-! ## Basic Python string operations on `List Char` -/

/-- Python `str.upper` (basic latin letters; the source data is ASCII). -/
def pyUpper (s : List Char) : List Char := s.map Char.toUpper

/-- Python `str.lower` (basic latin letters). -/
def pyLower (s : List Char) : List Char := s.map Char.toLower

/-- Python `str.strip`: drop whitespace from both ends. -/
def trimChars (s : List Char) : List Char :=
  (((s.dropWhile Char.isWhitespace).reverse).dropWhile Char.isWhitespace).reverse

/-- Python `sep.join(pieces)`: interleave the separator between the pieces. -/
def joinSep (sep : List Char) : List (List Char) → List Char
  | [] => []
  | [t] => t
  | t :: ts => t ++ sep ++ joinSep sep ts

/-- Python `s.split(sep)` for a one-character separator. -/
def splitOnChar (c : Char) : List Char → List (List Char)
  | [] => [[]]
  | x :: xs =>
    if x = c then [] :: splitOnChar c xs
    else
      match splitOnChar c xs with
      | [] => [[x]]
      | t :: ts => (x :: t) :: ts

/-- Numeric value of a nonempty run of decimal digits (Python `int(...)`). -/
def natOfDigits (ds : List Char) : Nat :=
  ds.foldl (fun a c => a * 10 + (c.toNat - 48)) 0

/-- Python `s.split(":", 1)[1]`: everything after the first colon (the source
only evaluates this under a guard that guarantees a colon is present). -/
def afterFirstColon : List Char → List Char
  | [] => []
  | ':' :: r => r
  | _ :: r => afterFirstColon r

/-! ## String constants of the source -/

def POSITIVO : List Char := "POSITIVO".toList

def NEGATIVO : List Char := "NEGATIVO".toList

def POSITIVO_COLON : List Char := "POSITIVO: ".toList

def POSITIVO_COLON_CURTO : List Char := "POSITIVO:".toList

def commaSpace : List Char := ", ".toList

def COLON_SP : List Char := ": ".toList

def DIG34 : List Char := "34".toList

def TRACO : List Char := "-".toList

def NAO_ESPECIFICADO : List Char := "Não especificado".toList

def NASOFARINGEO : List Char := "Nasofaríngeo".toList

def NAN_STR : List Char := "nan".toList

def INDETERMINADO : List Char := "INDETERMINADO".toList

def POSITIVO_FRACO : List Char := "POSITIVO FRACO".toList

/-! ## Column names (pandas column keys) -/

def COL_SITE : String := "Código do Site"

def COL_SEXO : String := "Sexo"

def COL_IDADE : String := "Idade"

def COL_RESIDENCIA : String := "Residência/Bairro"

def COL_COLHEITA : String := "Data da Colheita"

def COL_ENTRADA : String := "Data de entrada"

def COL_RSV : String := "Resultado RSV"

def SARS1 : String := "Resultado SARS"

def SARS2 : String := "Resultado Sars-Cov-2"

def SARS3 : String := "Resultado  SARS"

def C_InfA : String := "InfA"

def C_Apdm : String := "Apdm"

def C_H1pdm : String := "H1pdm"

def C_H3 : String := "H3"

def C_H5 : String := "H5"

def C_H5a : String := "H5a"

def C_H5b : String := "H5b"

def C_H7 : String := "H7"

def C_InfB : String := "InfB"

def C_Vic : String := "Vic"

def C_Yam : String := "Yam"

/-! ## Influenza classifier (`classificar_influenza_subtipos`, app.py 46-80) -/

def LBL_A : List Char := "A".toList

def LBL_H1 : List Char := "A(H1pdm)".toList

def LBL_H3 : List Char := "A(H3N2)".toList

def LBL_H5 : List Char := "A(H5)".toList

def LBL_H5a : List Char := "A(H5a)".toList

def LBL_H5b : List Char := "A(H5b)".toList

def LBL_H7 : List Char := "A(H7)".toList

def LBL_B : List Char := "B".toList

def LBL_VIC : List Char := "B(Victoria)".toList

def LBL_YAM : List Char := "B(Yamagata)".toList

/-- The ordered column-to-label table of the classifier (insertion order of
the Python dict `columns_subtipos`). -/
def columns_subtipos : List (String × List Char) :=
  [(C_InfA, LBL_A), (C_Apdm, LBL_H1), (C_H1pdm, LBL_H1), (C_H3, LBL_H3),
   (C_H5, LBL_H5), (C_H5a, LBL_H5a), (C_H5b, LBL_H5b), (C_H7, LBL_H7),
   (C_InfB, LBL_B), (C_Vic, LBL_VIC), (C_Yam, LBL_YAM)]

def THRESHOLD_CT : Rat := 40

/-- One raw record viewed by the classifier: for each column name, `some q`
when `float(row.get(col))` succeeds with the comparable number `q`, `none`
when the column is absent or the conversion raises (or yields `nan`, which
never satisfies `ct < 40`). -/
def ctTrigger (row : String → Option Rat) (col : String) : Bool :=
  match row col with
  | some q => decide (q < THRESHOLD_CT)
  | none => false

/-- The `found_subtypes` accumulator loop of `classificar_influenza_subtipos`. -/
def foundSubtypes (row : String → Option Rat) : List (List Char) :=
  columns_subtipos.foldl (fun acc p => if ctTrigger row p.1 then acc ++ [p.2] else acc) []

/-- Classifier result string: `"POSITIVO: " + ", ".join(found_subtypes)` when
the accumulator is nonempty, `"NEGATIVO"` otherwise (app.py 77-80). -/
def classificar_influenza_subtipos (row : String → Option Rat) : List Char :=
  if foundSubtypes row = [] then NEGATIVO
  else POSITIVO_COLON ++ joinSep commaSpace (foundSubtypes row)

def subtipoLabels : List (List Char) := columns_subtipos.map Prod.snd

/-! ## Age parsing (`extrair_valor_idade`, app.py 27-44) -/

/-- Age parser: `re.match(r'(\d+)([amd])', idade_str.lower())`; `none` input
stands for a non-string value (the `isinstance(idade_str, str)` guard).
Since the digit class and the unit class are disjoint, the greedy regex match
equals taking the maximal leading digit run and testing the next character. -/
def extrair_valor_idade : Option (List Char) → Option Rat
  | none => none
  | some cs =>
    match (pyLower cs).dropWhile Char.isDigit with
    | [] => none
    | u :: _ =>
      if (pyLower cs).takeWhile Char.isDigit = [] then none
      else if u = 'a' then some ((natOfDigits ((pyLower cs).takeWhile Char.isDigit) : Nat) : Rat)
      else if u = 'm' then some (((natOfDigits ((pyLower cs).takeWhile Char.isDigit) : Nat) : Rat) / 12)
      else if u = 'd' then some (((natOfDigits ((pyLower cs).takeWhile Char.isDigit) : Nat) : Rat) / 365)
      else none

/-- Spec-side predicate, from the claim's wording: the (lower-cased) age string
has a nonempty leading run of decimal digits followed by one of the unit
letters a / m / d. -/
def idadePadrao (cs : List Char) : Bool :=
  decide ((pyLower cs).takeWhile Char.isDigit ≠ []) &&
  (match (pyLower cs).dropWhile Char.isDigit with
   | [] => false
   | u :: _ => decide (u = 'a' ∨ u = 'm' ∨ u = 'd'))

/-! ## Pandas cells and the normalized record (`carregar_dados`, app.py 82-172) -/

inductive Cell where
  | na : Cell
  | num : Rat → Cell
  | txt : List Char → Cell
  | dt : Int → Cell
deriving DecidableEq

/-- Python `float(cell)` outcome (see `Cell`). -/
def toFloatCell : Cell → Option Rat
  | .num q => some q
  | _ => none

/-- Outcome of `pd.to_datetime(cell, errors="coerce")`: `NaT` becomes `none`. -/
def toDatetimeCell : Cell → Option Int
  | .dt d => some d
  | _ => none

/-- The `isinstance(x, str)` view of a cell. -/
def strCell : Cell → Option (List Char)
  | .txt s => some s
  | _ => none

/-- Pandas `.astype(str)` on one cell; a missing value stringifies to `"nan"`. -/
def astypeStr : Cell → List Char
  | .na => NAN_STR
  | .num q => (toString q).toList
  | .txt s => s
  | .dt d => (toString d).toList

/-- Pandas `.fillna(default)` on one cell. -/
def fillnaCell (d : List Char) : Cell → Cell
  | .na => .txt d
  | c => c

/-- One row of the cleaned frame `df_limpo` (app.py 145-164). -/
structure Specimen where
  codigo : List Char
  sexo : List Char
  idade : List Char
  idadeNum : Option Rat
  residencia : List Char
  dataColheita : Option Int
  dataEntrada : Option Int
  tipoAmostra : List Char
  influenza : List Char
  rsv : List Char
  sars : List Char
  fluAPos : Bool
  fluBPos : Bool
deriving DecidableEq

/-- One uploaded row: cell lookup by (normalized) column name; a column that
is absent from the frame holds `Cell.na`. -/
structure RawRow where
  get : String → Cell

/-- The uploaded frame: its header list and its rows. -/
structure RawTable where
  headers : List String
  rows : List RawRow

/-- Python `s.replace("  ", " ")` (single left-to-right non-overlapping pass). -/
def collapseDouble : List Char → List Char
  | ' ' :: ' ' :: rest => ' ' :: collapseDouble rest
  | c :: rest => c :: collapseDouble rest
  | [] => []

/-- Header hygiene (app.py 95): `str.strip()` then `str.replace("  ", " ")`. -/
def normalizeHeader (h : String) : String :=
  String.mk (collapseDouble (trimChars h.data))

def colunas_obrigatorias : List String :=
  [COL_SITE, COL_SEXO, COL_IDADE, COL_RESIDENCIA, COL_COLHEITA, COL_ENTRADA, COL_RSV]

def colunas_sars : List String := [SARS1, SARS2, SARS3]

inductive ValidationError where
  | colunasFaltando : List String → ValidationError
  | sarsNaoEncontrada : ValidationError
  | nenhumDado : ValidationError
deriving DecidableEq

/-- The `colunas_faltantes` list of app.py 101, computed on normalized headers. -/
def colunasFaltantes (t : RawTable) : List String :=
  colunas_obrigatorias.filter (fun c => decide (¬ c ∈ t.headers.map normalizeHeader))

def fluA_cols : List String := [C_InfA, C_Apdm, C_H1pdm, C_H3, C_H5, C_H5a, C_H5b, C_H7]

def fluB_cols : List String := [C_InfB, C_Vic, C_Yam]

/-- The classifier's view of a raw row (`row.get(col)` then `float`). -/
def rowCt (r : RawRow) : String → Option Rat := fun c => toFloatCell (r.get c)

/-- Construction of one `df_limpo` row (app.py 114-164). The residence field
mirrors the source order exactly: `.astype(str)` first, `.fillna(...)` after
(so the fill is applied to an already stringified cell). -/
def toSpecimen (sarsCol : String) (r : RawRow) : Specimen :=
  { codigo := trimChars (astypeStr (r.get COL_SITE))
    sexo := pyUpper (astypeStr (r.get COL_SEXO))
    idade := astypeStr (r.get COL_IDADE)
    idadeNum := extrair_valor_idade (strCell (r.get COL_IDADE))
    residencia := astypeStr (fillnaCell NAO_ESPECIFICADO (Cell.txt (astypeStr (r.get COL_RESIDENCIA))))
    dataColheita := toDatetimeCell (r.get COL_COLHEITA)
    dataEntrada := toDatetimeCell (r.get COL_ENTRADA)
    tipoAmostra := NASOFARINGEO
    influenza := classificar_influenza_subtipos (rowCt r)
    rsv := pyUpper (astypeStr (fillnaCell TRACO (r.get COL_RSV)))
    sars := pyUpper (astypeStr (fillnaCell TRACO (r.get sarsCol)))
    fluAPos := fluA_cols.any (fun c => ctTrigger (rowCt r) c)
    fluBPos := fluB_cols.any (fun c => ctTrigger (rowCt r) c) }

/-- Record normalization (`carregar_dados`): required-column check, SARS alias
lookup, per-row cleaning, empty-result check — in the source's order. -/
def carregar_dados (t : RawTable) : Except ValidationError (List Specimen) :=
  if colunasFaltantes t = [] then
    match colunas_sars.find? (fun c => decide (c ∈ t.headers.map normalizeHeader)) with
    | none => Except.error ValidationError.sarsNaoEncontrada
    | some sarsCol =>
      if t.rows.map (toSpecimen sarsCol) = [] then Except.error ValidationError.nenhumDado
      else Except.ok (t.rows.map (toSpecimen sarsCol))
  else Except.error (ValidationError.colunasFaltando (colunasFaltantes t))

/-! ## Positivity predicates and global rates (app.py 174-195, 251-259) -/

/-- Substring test `"POSITIVO" in x.upper()` (app.py 184, 227, 329, 339). -/
def containsPositivo (s : List Char) : Bool := decide (POSITIVO <:+: pyUpper s)

/-- Substring test with a leading strip, app.py 256. -/
def containsPositivoStrip (s : List Char) : Bool := decide (POSITIVO <:+: pyUpper (trimChars s))

/-- Strict equality test `x.strip().upper() == "POSITIVO"` (app.py 185-186,
238-239, 257-258). -/
def resultadoPositivo (s : List Char) : Bool := decide (pyUpper (trimChars s) = POSITIVO)

/-- Python 3 banker's rounding to an integer. -/
def roundHalfEven (q : Rat) : Int :=
  if q - (q.floor : Rat) < 1 / 2 then q.floor
  else if 1 / 2 < q - (q.floor : Rat) then q.floor + 1
  else if q.floor % 2 = 0 then q.floor else q.floor + 1

/-- Python `round(x, 2)`. -/
def round2 (q : Rat) : Rat := ((roundHalfEven (q * 100) : Int) : Rat) / 100

structure Resumo where
  total : Nat
  pos_influenza : Nat
  pos_influenza_perc : Rat
  pos_sars : Nat
  pos_sars_perc : Rat
  pos_rsv : Nat
  pos_rsv_perc : Rat
deriving DecidableEq

/-- Global pathogen statistics (`calcular_resumo`, app.py 174-195). -/
def calcular_resumo (rows : List Specimen) : Resumo :=
  if rows.length = 0 then ⟨0, 0, 0, 0, 0, 0, 0⟩
  else
    { total := rows.length
      pos_influenza := rows.countP (fun r => containsPositivo r.influenza)
      pos_influenza_perc :=
        round2 ((rows.countP (fun r => containsPositivo r.influenza) : Rat) / (rows.length : Rat) * 100)
      pos_sars := rows.countP (fun r => resultadoPositivo r.sars)
      pos_sars_perc :=
        round2 ((rows.countP (fun r => resultadoPositivo r.sars) : Rat) / (rows.length : Rat) * 100)
      pos_rsv := rows.countP (fun r => resultadoPositivo r.rsv)
      pos_rsv_perc :=
        round2 ((rows.countP (fun r => resultadoPositivo r.rsv) : Rat) / (rows.length : Rat) * 100) }

structure Taxas where
  influenza : Rat
  sars : Rat
  rsv : Rat
deriving DecidableEq

/-- Global period rates (`calc_taxas` inside `gerar_resumo_dinamico`,
app.py 251-259). -/
def calc_taxas (rows : List Specimen) : Taxas :=
  if rows.length = 0 then ⟨0, 0, 0⟩
  else
    { influenza :=
        round2 (100 * (rows.countP (fun r => containsPositivoStrip r.influenza) : Rat) / (rows.length : Rat))
      sars := round2 (100 * (rows.countP (fun r => resultadoPositivo r.sars) : Rat) / (rows.length : Rat))
      rsv := round2 (100 * (rows.countP (fun r => resultadoPositivo r.rsv) : Rat) / (rows.length : Rat)) }

/-! ## Facility prefix table (app.py 210-218, 280-288) -/

def U_IRAS1 : List Char := "IRAS1".toList

def U_IRAS2 : List Char := "IRAS2".toList

def U_IRAS3 : List Char := "IRAS3".toList

def U_IRAS4 : List Char := "IRAS4".toList

def U_IRAS5 : List Char := "IRAS5".toList

def U_IRAS6 : List Char := "IRAS6".toList

def U_IDS : List Char := "IDS".toList

def NOME_IRAS1 : List Char := "HCM pediatria".toList

def NOME_IRAS2 : List Char := "HGM pediatria".toList

def NOME_IRAS3 : List Char := "Centro de saude de Mavalane".toList

def NOME_IRAS4 : List Char := "Centro de saude de Marracuene".toList

def NOME_IRAS5 : List Char := "Hospital Centra de Maputo Adultos".toList

def NOME_IRAS6 : List Char := "Hospital Geral de Mavalane Adulto".toList

def NOME_IDS : List Char := "CSZ".toList

/-- The ordered facility table `unidades` (identical in
`gerar_resumo_dinamico` and `criar_tabelas_unidades_sanitarias`). -/
def unidades : List (List Char × List Char) :=
  [(U_IRAS1, NOME_IRAS1), (U_IRAS2, NOME_IRAS2), (U_IRAS3, NOME_IRAS3),
   (U_IRAS4, NOME_IRAS4), (U_IRAS5, NOME_IRAS5), (U_IRAS6, NOME_IRAS6),
   (U_IDS, NOME_IDS)]

/-- Per-facility record selection:
`df[df["Código"].str.startswith(code, na=False)]` (app.py 221, 294). -/
def facilityFilter (code : List Char) (rows : List Specimen) : List Specimen :=
  rows.filter (fun r => code.isPrefixOf r.codigo)

/-! ## Period partitioning (app.py 466-479) -/

/-- The window mask `(dt >= inicio) & (dt <= fim)`; a row whose selected date
is `NaT` compares false on both sides. -/
def filtroPeriodo (sel : Specimen → Option Int) (a b : Int) (rows : List Specimen) : List Specimen :=
  rows.filter (fun r =>
    match sel r with
    | none => false
    | some d => decide (a ≤ d) && decide (d ≤ b))

/-- Current and previous period: the previous window shifts both bounds back
by `timedelta(days=7)`. -/
def particionarPeriodos (sel : Specimen → Option Int) (a b : Int) (rows : List Specimen) :
    List Specimen × List Specimen :=
  (filtroPeriodo sel a b rows, filtroPeriodo sel (a - 7) (b - 7) rows)

/-! ## Facility table cells (`criar_tabelas_unidades_sanitarias`, app.py 318-343) -/

/-- Influenza table cell (app.py 328-332): collapse the detailed status to
`"POSITIVO"` / `"NEGATIVO"`. -/
def influenzaCellText (v : List Char) : List Char :=
  if containsPositivo v then POSITIVO else NEGATIVO

/-- Conditional emphasis (app.py 337-343): bold and red when
`"POSITIVO" in cell.text.upper()`. -/
def emphasisFlag (s : List Char) : Bool := decide (POSITIVO <:+: pyUpper s)

/-! ## Downstream subtype-token parsing (`gerar_resumo_dinamico`, app.py 226-232) -/

/-- Guard `"POSITIVO:" in str(val).upper()` of app.py 227. -/
def containsPositivoColon (s : List Char) : Bool := decide (POSITIVO_COLON_CURTO <:+: pyUpper s)

/-- Token extraction of app.py 227-231: text after the first colon, stripped,
split on commas, each token stripped. -/
def subtipoTokens (val : List Char) : List (List Char) :=
  if containsPositivoColon val then
    if trimChars (afterFirstColon val) = [] then []
    else (splitOnChar ',' (trimChars (afterFirstColon val))).map trimChars
  else []

/-! ## Concrete inputs used by witnesses and counterexamples -/

/-- A raw record where both the `Apdm` and the `H1pdm` assay read ct 30. -/
def rowDupla : String → Option Rat :=
  fun c => if c = C_Apdm ∨ c = C_H1pdm then some 30 else none

/-- A raw record where only the `H3` assay reads ct 25. -/
def rowH3 : String → Option Rat := fun c => if c = C_H3 then some 25 else none

/-- A raw record that differs from `rowH3` only outside the eleven sub-assay
columns. -/
def rowH3x : String → Option Rat :=
  fun c => if c = C_H3 then some 25 else if c = COL_IDADE then some 99 else none

/-- A concrete specimen with collection date 3. -/
def espModelo : Specimen :=
  { codigo := "IRAS1-01".toList
    sexo := "F".toList
    idade := "34a".toList
    idadeNum := some 34
    residencia := NAO_ESPECIFICADO
    dataColheita := some 3
    dataEntrada := none
    tipoAmostra := NASOFARINGEO
    influenza := NEGATIVO
    rsv := TRACO
    sars := TRACO
    fluAPos := false
    fluBPos := false }

/-- The same specimen with collection date 0. -/
def espDia0 : Specimen := { espModelo with dataColheita := some 0 }

/-- The same specimen with site code `IRAS10`. -/
def esp10 : Specimen := { espModelo with codigo := "IRAS10".toList }

/-- An uploaded table whose only (normalized) header is `Sexo`, with no rows. -/
def tSoSexo : RawTable := { headers := [COL_SEXO], rows := [] }

/-- A raw row all of whose cells are missing. -/
def linhaVazia : RawRow := { get := fun _ => Cell.na }

/-! ## Helper lemmas -/

theorem mem_filtroPeriodo {sel : Specimen → Option Int} {a b : Int} {rows : List Specimen}
    {r : Specimen} :
    r ∈ filtroPeriodo sel a b rows ↔ r ∈ rows ∧ ∃ d, sel r = some d ∧ a ≤ d ∧ d ≤ b := by
  unfold filtroPeriodo
  rw [List.mem_filter]
  constructor
  · rintro ⟨hr, hp⟩
    refine ⟨hr, ?_⟩
    cases hsel : sel r with
    | none => rw [hsel] at hp; simp at hp
    | some d =>
      rw [hsel] at hp
      simp only [Bool.and_eq_true, decide_eq_true_eq] at hp
      exact ⟨d, rfl, hp.1, hp.2⟩
  · rintro ⟨hr, d, hd, h1, h2⟩
    refine ⟨hr, ?_⟩
    rw [hd]
    simp [h1, h2]

theorem mem_facilityFilter {code : List Char} {rows : List Specimen} {r : Specimen} :
    r ∈ facilityFilter code rows ↔ r ∈ rows ∧ code <+: r.codigo := by
  unfold facilityFilter
  rw [List.mem_filter]
  simp

theorem unidades_sem_colisao :
    List.Pairwise (fun p q : List Char × List Char => ¬ p.1 <+: q.1 ∧ ¬ q.1 <+: p.1) unidades := by
  decide

/-! ## Claim theorems -/

/-- C2: for every record, RSV and SARS-CoV-2 positivity hold iff the trimmed,
upper-cased textual result equals exactly "POSITIVO"; "-", "NEGATIVO" and
"INDETERMINADO" are not positive, and a text that merely contains "POSITIVO"
as a substring (such as "POSITIVO FRACO") is not positive either; the counts
of `calcular_resumo` apply exactly this predicate to each record. -/
theorem c2_resultado_positivo_estrito :
    (∀ s : List Char, resultadoPositivo s = true ↔ pyUpper (trimChars s) = POSITIVO)
    ∧ resultadoPositivo TRACO = false
    ∧ resultadoPositivo NEGATIVO = false
    ∧ resultadoPositivo INDETERMINADO = false
    ∧ (resultadoPositivo POSITIVO_FRACO = false
       ∧ (POSITIVO <:+: pyUpper (trimChars POSITIVO_FRACO)))
    ∧ (∀ rows : List Specimen,
        (calcular_resumo rows).pos_sars = rows.countP (fun r => resultadoPositivo r.sars)
        ∧ (calcular_resumo rows).pos_rsv = rows.countP (fun r => resultadoPositivo r.rsv)) := by
  refine ⟨fun s => by simp [resultadoPositivo], by decide, by decide, by decide,
    ⟨by decide, by decide⟩, fun rows => ?_⟩
  unfold calcular_resumo
  by_cases h : rows.length = 0
  · have hr : rows = [] := List.length_eq_zero.mp h
    subst hr
    simp
  · simp [h]

/-- C4: a specimen is in the current set iff its selected date is non-null and
lies inclusively inside the window; the previous set uses both bounds shifted
back by exactly 7 days; a null selected date lands in neither set. -/
theorem c4_particionar_caracterizacao (sel : Specimen → Option Int) (a b : Int)
    (rows : List Specimen) (r : Specimen) :
    (r ∈ (particionarPeriodos sel a b rows).1 ↔
        r ∈ rows ∧ ∃ d, sel r = some d ∧ a ≤ d ∧ d ≤ b)
    ∧ (r ∈ (particionarPeriodos sel a b rows).2 ↔
        r ∈ rows ∧ ∃ d, sel r = some d ∧ a - 7 ≤ d ∧ d ≤ b - 7)
    ∧ (sel r = none →
        r ∉ (particionarPeriodos sel a b rows).1 ∧ r ∉ (particionarPeriodos sel a b rows).2) := by
  refine ⟨mem_filtroPeriodo, mem_filtroPeriodo, fun hnone => ⟨?_, ?_⟩⟩
  · intro hmem
    rcases mem_filtroPeriodo.mp hmem with ⟨-, d, hd, -, -⟩
    rw [hnone] at hd
    cases hd
  · intro hmem
    rcases mem_filtroPeriodo.mp hmem with ⟨-, d, hd, -, -⟩
    rw [hnone] at hd
    cases hd

/-- C4 witness: with window 0..5 and a specimen collected on day 3, the
specimen lands in the current set. -/
theorem c4_particionar_caracterizacao_w :
    espModelo ∈ (particionarPeriodos (fun r => r.dataColheita) 0 5 [espModelo]).1 :=
  ((c4_particionar_caracterizacao (fun r => r.dataColheita) 0 5 [espModelo] espModelo).1).mpr
    ⟨List.mem_singleton.mpr rfl, 3, rfl, by decide, by decide⟩

/-- C5 counterexample: with the 8-day window 0..7, a specimen dated 0 is
selected by the current window and by the 7-day-shifted previous window at
the same time, so the claim as stated (never in both) is false. -/
theorem c5_janela_longa_cex :
    espDia0 ∈ (particionarPeriodos (fun r => r.dataColheita) 0 7 [espDia0]).1
    ∧ espDia0 ∈ (particionarPeriodos (fun r => r.dataColheita) 0 7 [espDia0]).2 := by
  constructor <;> decide

/-- C5 amended: whenever the window spans at most 7 days (end < start + 7),
no specimen with a fixed non-null date is placed in both the current and the
7-day-shifted previous set. -/
theorem c5_sem_dupla_contagem (sel : Specimen → Option Int) (a b : Int)
    (rows : List Specimen) (r : Specimen) (hlen : b < a + 7) :
    ¬ (r ∈ (particionarPeriodos sel a b rows).1 ∧ r ∈ (particionarPeriodos sel a b rows).2) := by
  rintro ⟨h1, h2⟩
  rcases mem_filtroPeriodo.mp h1 with ⟨-, d, hd, ha, hb⟩
  rcases mem_filtroPeriodo.mp h2 with ⟨-, d', hd', ha', hb'⟩
  rw [hd] at hd'
  cases hd'
  omega

/-- C5 amended witness: the default 6-day window 0..5 never double counts. -/
theorem c5_sem_dupla_contagem_w :
    ¬ (espModelo ∈ (particionarPeriodos (fun r => r.dataColheita) 0 5 [espModelo]).1
       ∧ espModelo ∈ (particionarPeriodos (fun r => r.dataColheita) 0 5 [espModelo]).2) :=
  c5_sem_dupla_contagem (fun r => r.dataColheita) 0 5 [espModelo] espModelo (by decide)

/-- C7 counterexample: the emphasis flag is set by substring containment, so
the cell text "POSITIVO FRACO" is emphasised even though it is not exactly
"POSITIVO" under case-insensitive comparison — the claim as stated is false. -/
theorem c7_igualdade_exata_cex :
    emphasisFlag POSITIVO_FRACO = true ∧ pyUpper POSITIVO_FRACO ≠ POSITIVO := by
  constructor <;> decide

/-- C7 amended: a result cell is emphasised iff its upper-cased text contains
"POSITIVO" as a substring; on the Influenza cell — whose text is always
exactly "POSITIVO" or "NEGATIVO" — this coincides with case-insensitive
equality with "POSITIVO". -/
theorem c7_emphasis_contem (s v : List Char) :
    (emphasisFlag s = true ↔ POSITIVO <:+: pyUpper s)
    ∧ (emphasisFlag (influenzaCellText v) = true ↔ pyUpper (influenzaCellText v) = POSITIVO) := by
  constructor
  · simp [emphasisFlag]
  · unfold influenzaCellText
    by_cases h : containsPositivo v
    · simp only [h, if_true]
      decide
    · simp only [h, if_false]
      decide

/-- C9: code bug — for a row whose residence cell is missing, the produced
record's residence field is the literal string "nan", not the documented
default "Não especificado": `.astype(str)` stringifies `NaN` to "nan" before
`.fillna("Não especificado")` runs, so the fill never fires. -/
theorem c9_residencia_nan_bug :
    (toSpecimen SARS1 linhaVazia).residencia = NAN_STR
    ∧ (toSpecimen SARS1 linhaVazia).residencia ≠ NAO_ESPECIFICADO := by
  constructor <;> decide

/-! ## Helper lemmas for age parsing -/

theorem toLower_digit (c : Char) (h : c.isDigit = true) : c.toLower = c := by
  simp [Char.isDigit] at h
  simp [Char.toLower]
  intro h65 h90
  exfalso
  obtain ⟨h1, h2⟩ := h
  rw [UInt32.le_def, BitVec.le_def] at h2
  have e1 : (UInt32.toBitVec 57).toNat = 57 := rfl
  have e2 : c.toNat = c.val.toBitVec.toNat := rfl
  rw [e1] at h2
  rw [e2] at h65
  omega

theorem map_eq_self_of {l : List Char} {f : Char → Char} (h : ∀ x ∈ l, f x = x) :
    l.map f = l := by
  induction l with
  | nil => rfl
  | cons a t ih => simp [h a (by simp), ih (fun x hx => h x (by simp [hx]))]

theorem takeWhile_all_cons {p : Char → Bool} {x : Char} {l₁ l₂ : List Char}
    (h : ∀ c ∈ l₁, p c = true) (hx : p x = false) :
    (l₁ ++ x :: l₂).takeWhile p = l₁ := by
  induction l₁ with
  | nil => simp [List.takeWhile_cons, hx]
  | cons a t ih =>
    simp [List.takeWhile_cons, h a (by simp), ih (fun c hc => h c (by simp [hc]))]

theorem dropWhile_all_cons {p : Char → Bool} {x : Char} {l₁ l₂ : List Char}
    (h : ∀ c ∈ l₁, p c = true) (hx : p x = false) :
    (l₁ ++ x :: l₂).dropWhile p = x :: l₂ := by
  induction l₁ with
  | nil => simp [List.dropWhile_cons, hx]
  | cons a t ih =>
    simp [List.dropWhile_cons, h a (by simp), ih (fun c hc => h c (by simp [hc]))]

/-- C3: for an age string made of a leading digit run followed by a unit
letter a / m / d (case-insensitive, arbitrary trailing text, matching the
unanchored regex), the parser returns the integer for "a", the integer
divided by 12 for "m", and the integer divided by 365 for "d"; any string
without such a leading pattern, and any non-string input, yields `none`. -/
theorem c3_extrair_valor_idade_spec :
    (∀ (ds rest : List Char) (u : Char), ds ≠ [] → (∀ c ∈ ds, c.isDigit = true) →
      (u.toLower = 'a' ∨ u.toLower = 'm' ∨ u.toLower = 'd') →
      extrair_valor_idade (some (ds ++ u :: rest)) =
        some (if u.toLower = 'a' then (natOfDigits ds : Rat)
              else if u.toLower = 'm' then (natOfDigits ds : Rat) / 12
              else (natOfDigits ds : Rat) / 365))
    ∧ (∀ cs : List Char, idadePadrao cs = false → extrair_valor_idade (some cs) = none)
    ∧ extrair_valor_idade none = none := by
  refine ⟨?_, ?_, rfl⟩
  · intro ds rest u hne hds hu
    have hmap : pyLower (ds ++ u :: rest) = ds ++ u.toLower :: pyLower rest := by
      unfold pyLower
      rw [List.map_append, List.map_cons, map_eq_self_of (fun x hx => toLower_digit x (hds x hx))]
    have hnd : Char.isDigit u.toLower = false := by
      rcases hu with h | h | h <;> rw [h] <;> decide
    have htake : (pyLower (ds ++ u :: rest)).takeWhile Char.isDigit = ds := by
      rw [hmap]; exact takeWhile_all_cons hds hnd
    have hdrop : (pyLower (ds ++ u :: rest)).dropWhile Char.isDigit = u.toLower :: pyLower rest := by
      rw [hmap]; exact dropWhile_all_cons hds hnd
    simp only [extrair_valor_idade]
    rw [hdrop, htake]
    dsimp only
    rw [if_neg hne]
    rcases hu with h | h | h <;> simp [h]
  · intro cs hpad
    unfold idadePadrao at hpad
    simp only [extrair_valor_idade]
    cases hdrop : (pyLower cs).dropWhile Char.isDigit with
    | nil => rfl
    | cons u t =>
      rw [hdrop] at hpad
      dsimp only at hpad ⊢
      by_cases hds : (pyLower cs).takeWhile Char.isDigit = []
      · rw [if_pos hds]
      · have hu : ¬ (u = 'a' ∨ u = 'm' ∨ u = 'd') := by
          intro hcontra
          simp [hds, hcontra] at hpad
        rw [if_neg hds, if_neg (fun h => hu (Or.inl h)),
          if_neg (fun h => hu (Or.inr (Or.inl h))), if_neg (fun h => hu (Or.inr (Or.inr h)))]

/-- C3 witness: "34A" parses to 34 years. -/
theorem c3_extrair_valor_idade_spec_w :
    extrair_valor_idade (some (DIG34 ++ 'A' :: [])) = some (34 : Rat) := by
  rw [c3_extrair_valor_idade_spec.1 DIG34 [] 'A' (by decide) (by decide) (by decide)]
  decide

/-! ## Helper lemma for the classifier accumulator -/

theorem foldl_found (row : String → Option Rat) :
    ∀ (l : List (String × List Char)) (acc : List (List Char)),
      l.foldl (fun acc p => if ctTrigger row p.1 then acc ++ [p.2] else acc) acc
        = acc ++ (l.filter (fun p => ctTrigger row p.1)).map Prod.snd := by
  intro l
  induction l with
  | nil => intro acc; simp
  | cons p l ih =>
    intro acc
    by_cases h : ctTrigger row p.1
    · simp [List.foldl_cons, h, List.filter_cons, ih]
    · simp [List.foldl_cons, h, List.filter_cons, ih]

/-- C1 counterexample: when both the Apdm and the H1pdm columns trigger, the
carried label collection is ["A(H1pdm)", "A(H1pdm)"], which holds a duplicate:
the classifier emits the list of labels of all triggered columns, not the SET
of triggered subtype labels that the claim describes. -/
theorem c1_conjunto_cex :
    foundSubtypes rowDupla = [LBL_H1, LBL_H1]
    ∧ foundSubtypes rowDupla ≠ (foundSubtypes rowDupla).dedup
    ∧ classificar_influenza_subtipos rowDupla
        = POSITIVO_COLON ++ (LBL_H1 ++ commaSpace ++ LBL_H1) := by
  refine ⟨by decide, by decide, by decide⟩

/-- C1 amended: the classification examines exactly the eleven sub-assay
columns; a column triggers iff its value converts to a number strictly below
40.0 (absent or unconvertible values never trigger); the result is
"POSITIVO: " followed by the comma-joined list of the labels of all triggered
columns in canonical column order (a label may repeat when both columns
sharing it trigger) when at least one column triggers, and "NEGATIVO"
otherwise; records agreeing on the eleven columns classify identically. -/
theorem c1_classificador_influenza (row : String → Option Rat) :
    foundSubtypes row = (columns_subtipos.filter (fun p => ctTrigger row p.1)).map Prod.snd
    ∧ (∀ col q, row col = some q → (ctTrigger row col = true ↔ q < THRESHOLD_CT))
    ∧ (∀ col, row col = none → ctTrigger row col = false)
    ∧ classificar_influenza_subtipos row =
        (if foundSubtypes row = [] then NEGATIVO
         else POSITIVO_COLON ++ joinSep commaSpace (foundSubtypes row))
    ∧ (∀ row₂ : String → Option Rat,
        (∀ p ∈ columns_subtipos, row p.1 = row₂ p.1) →
        classificar_influenza_subtipos row = classificar_influenza_subtipos row₂) := by
  refine ⟨foldl_found row columns_subtipos [], ?_, ?_, rfl, ?_⟩
  · intro col q hq
    unfold ctTrigger
    rw [hq]
    simp
  · intro col hq
    unfold ctTrigger
    rw [hq]
  · intro row₂ hagree
    have hfs : foundSubtypes row = foundSubtypes row₂ := by
      unfold foundSubtypes
      rw [foldl_found row columns_subtipos [], foldl_found row₂ columns_subtipos []]
      congr 1
      apply congrArg
      apply List.filter_congr
      intro p hp
      unfold ctTrigger
      rw [hagree p hp]
    unfold classificar_influenza_subtipos
    rw [hfs]

/-- C1 witness: a record with ct 25 in column H3 classifies as
"POSITIVO: A(H3N2)", and classification only depends on the eleven columns. -/
theorem c1_classificador_influenza_w :
    classificar_influenza_subtipos rowH3 = classificar_influenza_subtipos rowH3x
    ∧ classificar_influenza_subtipos rowH3 = POSITIVO_COLON ++ LBL_H3 := by
  constructor
  · exact (c1_classificador_influenza rowH3).2.2.2.2 rowH3x (by decide)
  · decide

/-! ## Helper lemmas for the status-string invariant -/

theorem splitOnChar_ne_nil (c : Char) (l : List Char) : splitOnChar c l ≠ [] := by
  induction l with
  | nil => simp [splitOnChar]
  | cons x xs ih =>
    simp only [splitOnChar]
    by_cases h : x = c
    · simp [h]
    · simp only [h, if_false]
      cases hs : splitOnChar c xs with
      | nil => simp
      | cons t ts => simp

theorem splitOnChar_sem_sep {c : Char} {s : List Char} (h : ∀ x ∈ s, x ≠ c) :
    splitOnChar c s = [s] := by
  induction s with
  | nil => rfl
  | cons x xs ih =>
    have hx : x ≠ c := h x (by simp)
    have ih' := ih (fun y hy => h y (by simp [hy]))
    simp [splitOnChar, hx, ih']

theorem splitOnChar_append_sep {c : Char} {t r : List Char} (h : ∀ x ∈ t, x ≠ c) :
    splitOnChar c (t ++ c :: r) = t :: splitOnChar c r := by
  induction t with
  | nil => simp [splitOnChar]
  | cons a s ih =>
    have ha : a ≠ c := h a (by simp)
    have ih' := ih (fun y hy => h y (by simp [hy]))
    simp [splitOnChar, ha, ih']

theorem splitOnChar_cons_ne {c x : Char} {l : List Char} (hx : x ≠ c) :
    ∃ h t, splitOnChar c l = h :: t ∧ splitOnChar c (x :: l) = (x :: h) :: t := by
  cases hs : splitOnChar c l with
  | nil => exact absurd hs (splitOnChar_ne_nil c l)
  | cons h t => exact ⟨h, t, rfl, by simp [splitOnChar, hx, hs]⟩

theorem dropWhile_id_of_head {p : Char → Bool} {l : List Char}
    (h : ∀ x, l.head? = some x → p x = false) : l.dropWhile p = l := by
  cases l with
  | nil => rfl
  | cons a t => simp [List.dropWhile_cons, h a rfl]

theorem trimChars_cons_space (l : List Char) : trimChars (' ' :: l) = trimChars l := by
  unfold trimChars
  simp [List.dropWhile_cons, Char.isWhitespace]

theorem trimChars_eq_self {l : List Char}
    (h1 : ∀ x, l.head? = some x → x.isWhitespace = false)
    (h2 : ∀ x, l.getLast? = some x → x.isWhitespace = false) :
    trimChars l = l := by
  unfold trimChars
  rw [dropWhile_id_of_head h1]
  rw [dropWhile_id_of_head (fun x hx => h2 x (by rwa [List.head?_reverse] at hx))]
  exact List.reverse_reverse l

theorem joinSep_ne_nil {sep : List Char} {ts : List (List Char)} (h : ts ≠ [])
    (h2 : ∀ t ∈ ts, t ≠ []) : joinSep sep ts ≠ [] := by
  cases ts with
  | nil => exact absurd rfl h
  | cons t ts =>
    cases ts with
    | nil => simpa [joinSep] using h2 t (by simp)
    | cons t2 ts2 =>
      show t ++ sep ++ joinSep sep (t2 :: ts2) ≠ []
      simp only [ne_eq, List.append_eq_nil, not_and]
      intro hts
      exact absurd hts.1 (h2 t (by simp))

theorem joinSep_head {sep : List Char} {t : List Char} {ts : List (List Char)} (h : t ≠ []) :
    (joinSep sep (t :: ts)).head? = t.head? := by
  cases ts with
  | nil => rfl
  | cons t2 ts2 =>
    show (t ++ sep ++ joinSep sep (t2 :: ts2)).head? = t.head?
    cases t with
    | nil => exact absurd rfl h
    | cons a s => simp

theorem joinSep_getLast {sep : List Char} : ∀ {ts : List (List Char)}, ts ≠ [] →
    (∀ t ∈ ts, t ≠ []) → ∀ x, (joinSep sep ts).getLast? = some x →
    ∃ t ∈ ts, t.getLast? = some x := by
  intro ts
  induction ts with
  | nil => intro h; exact absurd rfl h
  | cons t ts ih =>
    intro _ hne x hx
    cases ts with
    | nil => exact ⟨t, by simp, by simpa [joinSep] using hx⟩
    | cons t2 ts2 =>
      have hJ : joinSep sep (t2 :: ts2) ≠ [] :=
        joinSep_ne_nil (by simp) (fun u hu => hne u (by simp [hu]))
      rw [show joinSep sep (t :: t2 :: ts2) = (t ++ sep) ++ joinSep sep (t2 :: ts2) from by
        simp [joinSep, List.append_assoc]] at hx
      rw [List.getLast?_append] at hx
      cases hg : (joinSep sep (t2 :: ts2)).getLast? with
      | none => exact absurd (by simpa using hg) hJ
      | some y =>
        rw [hg] at hx
        simp only [Option.or_some, Option.some.injEq] at hx
        subst hx
        obtain ⟨u, hu, hu2⟩ :=
          ih (by simp) (fun v hv => hne v (by simp [hv])) y hg
        exact ⟨u, by simp [hu], hu2⟩

theorem map_trim_split_join : ∀ {ts : List (List Char)}, ts ≠ [] →
    (∀ t ∈ ts, (∀ x ∈ t, x ≠ ',') ∧ trimChars t = t) →
    (splitOnChar ',' (joinSep commaSpace ts)).map trimChars = ts := by
  intro ts
  induction ts with
  | nil => intro h; exact absurd rfl h
  | cons t ts ih =>
    intro _ hok
    cases ts with
    | nil =>
      have h1 := (hok t (by simp)).1
      have h2 := (hok t (by simp)).2
      simp [joinSep, splitOnChar_sem_sep h1, h2]
    | cons t2 ts2 =>
      have ht := hok t (by simp)
      have hJ : joinSep commaSpace (t :: t2 :: ts2)
          = t ++ ',' :: ' ' :: joinSep commaSpace (t2 :: ts2) := by
        show t ++ commaSpace ++ _ = _
        simp [commaSpace]
      rw [hJ, splitOnChar_append_sep ht.1]
      obtain ⟨h, tl, hsplit, hsplit2⟩ :=
        splitOnChar_cons_ne (c := ',') (x := ' ') (l := joinSep commaSpace (t2 :: ts2))
          (by decide)
      rw [hsplit2]
      have ihr := ih (by simp) (fun u hu => hok u (by simp [hu]))
      rw [hsplit] at ihr
      simp only [List.map_cons] at ihr ⊢
      rw [trimChars_cons_space, ht.2, ihr]

theorem labels_ok : ∀ t ∈ subtipoLabels,
    t ≠ [] ∧ (∀ x ∈ t, x ≠ ',') ∧ trimChars t = t
    ∧ (t.head?.all (fun x => !x.isWhitespace)) = true
    ∧ (t.getLast?.all (fun x => !x.isWhitespace)) = true := by decide

theorem option_all_spec {o : Option Char} {p : Char → Bool} (h : o.all p = true) :
    ∀ x, o = some x → p x = true := by
  intro x hx
  rw [hx] at h
  simpa using h

theorem foundSubtypes_sub (row : String → Option Rat) :
    ∀ t ∈ foundSubtypes row, t ∈ subtipoLabels := by
  intro t ht
  unfold foundSubtypes at ht
  rw [foldl_found row columns_subtipos []] at ht
  simp only [List.nil_append, List.mem_map] at ht
  obtain ⟨p, hp, hp2⟩ := ht
  exact hp2 ▸ List.mem_map_of_mem Prod.snd (List.mem_of_mem_filter hp)

theorem afterColon_positivo (l : List Char) :
    afterFirstColon (POSITIVO_COLON ++ l) = ' ' :: l := rfl

/-- C10: every classifier output is either exactly "NEGATIVO" or
"POSITIVO: " followed by a comma-joined nonempty list of canonical subtype
labels; the downstream substring test (contains "POSITIVO") is equivalent to
the status being positive; and every comma-separated token that the report
summary extracts after the colon is one of the eleven canonical labels. -/
theorem c10_invariante_status (row : String → Option Rat) :
    (classificar_influenza_subtipos row = NEGATIVO
     ∨ ∃ ls, ls ≠ [] ∧ (∀ l ∈ ls, l ∈ subtipoLabels)
        ∧ classificar_influenza_subtipos row = POSITIVO_COLON ++ joinSep commaSpace ls)
    ∧ (containsPositivo (classificar_influenza_subtipos row) = true ↔ foundSubtypes row ≠ [])
    ∧ (∀ tok ∈ subtipoTokens (classificar_influenza_subtipos row), tok ∈ subtipoLabels) := by
  by_cases h : foundSubtypes row = []
  · have hcls : classificar_influenza_subtipos row = NEGATIVO := by
      simp [classificar_influenza_subtipos, h]
    refine ⟨Or.inl hcls, ?_, ?_⟩
    · rw [hcls]
      simp only [h, ne_eq, not_true_eq_false, iff_false]
      decide
    · rw [hcls]
      intro tok htok
      have hemp : subtipoTokens NEGATIVO = [] := by decide
      rw [hemp] at htok
      cases htok
  · have hcls : classificar_influenza_subtipos row
        = POSITIVO_COLON ++ joinSep commaSpace (foundSubtypes row) := by
      simp [classificar_influenza_subtipos, h]
    have hsub := foundSubtypes_sub row
    have hnn : ∀ t ∈ foundSubtypes row, t ≠ [] := fun t ht => (labels_ok t (hsub t ht)).1
    have hupper : pyUpper (classificar_influenza_subtipos row)
        = POSITIVO_COLON ++ pyUpper (joinSep commaSpace (foundSubtypes row)) := by
      rw [hcls]
      unfold pyUpper
      rw [List.map_append]
      rw [show List.map Char.toUpper POSITIVO_COLON = POSITIVO_COLON from by decide]
    refine ⟨Or.inr ⟨foundSubtypes row, h, hsub, hcls⟩, ?_, ?_⟩
    · simp only [h, ne_eq, not_false_eq_true, iff_true]
      unfold containsPositivo
      rw [decide_eq_true_iff]
      rw [hupper]
      exact ⟨[], COLON_SP ++ pyUpper (joinSep commaSpace (foundSubtypes row)), rfl⟩
    · intro tok htok
      have hafter : afterFirstColon (classificar_influenza_subtipos row)
          = ' ' :: joinSep commaSpace (foundSubtypes row) := by
        rw [hcls]
        exact afterColon_positivo _
      have hJne : joinSep commaSpace (foundSubtypes row) ≠ [] := joinSep_ne_nil h hnn
      have htrim : trimChars (afterFirstColon (classificar_influenza_subtipos row))
          = joinSep commaSpace (foundSubtypes row) := by
        rw [hafter, trimChars_cons_space]
        apply trimChars_eq_self
        · intro x hx
          obtain ⟨t, ts, hts⟩ : ∃ t ts, foundSubtypes row = t :: ts := by
            cases hf : foundSubtypes row with
            | nil => exact absurd hf h
            | cons t ts => exact ⟨t, ts, rfl⟩
          rw [hts] at hx
          rw [joinSep_head (hnn t (by rw [hts]; simp))] at hx
          have hall := (labels_ok t (hsub t (by rw [hts]; simp))).2.2.2.1
          have := option_all_spec hall x hx
          simpa using this
        · intro x hx
          obtain ⟨t, ht, ht2⟩ := joinSep_getLast h hnn x hx
          have hall := (labels_ok t (hsub t ht)).2.2.2.2
          have := option_all_spec hall x ht2
          simpa using this
      have hguard : containsPositivoColon (classificar_influenza_subtipos row) = true := by
        unfold containsPositivoColon
        rw [decide_eq_true_iff]
        rw [hupper]
        exact ⟨[], (' ' :: pyUpper (joinSep commaSpace (foundSubtypes row))), rfl⟩
      unfold subtipoTokens at htok
      rw [hguard] at htok
      rw [htrim] at htok
      simp only [if_true, hJne, if_false, if_neg hJne] at htok
      rw [map_trim_split_join h
        (fun t ht => ⟨(labels_ok t (hsub t ht)).2.1, (labels_ok t (hsub t ht)).2.2.1⟩)] at htok
      exact hsub tok htok

/-- C10 witness: for the record triggering only the H3 column, the extracted
token is the canonical label A(H3N2). -/
theorem c10_invariante_status_w : LBL_H3 ∈ subtipoLabels :=
  (c10_invariante_status rowH3).2.2 LBL_H3 (by decide)

/-- C6: membership in a facility's record set is exactly prefix matching of
that facility's code against the site code; the seven-entry table has no two
distinct codes that are both prefixes of one site code (so "first matching
prefix" is the unique matching prefix, and "IRAS10" belongs to "IRAS1",
which the ordered first-match lookup also returns); a specimen matching no
table code is in no facility's record set but is still counted in the global
totals of `calcular_resumo`. -/
theorem c6_unidade_por_codigo :
    (∀ code nome rows r, (code, nome) ∈ unidades →
        (r ∈ facilityFilter code rows ↔ r ∈ rows ∧ code <+: r.codigo))
    ∧ (∀ code₁ nome₁ code₂ nome₂ (s : List Char), (code₁, nome₁) ∈ unidades →
        (code₂, nome₂) ∈ unidades → code₁ <+: s → code₂ <+: s → code₁ = code₂)
    ∧ (U_IRAS1 <+: esp10.codigo
       ∧ unidades.find? (fun p => p.1.isPrefixOf esp10.codigo) = some (U_IRAS1, NOME_IRAS1))
    ∧ (∀ rows r, r ∈ rows → (∀ p ∈ unidades, ¬ p.1 <+: r.codigo) →
        (∀ p ∈ unidades, r ∉ facilityFilter p.1 rows)
        ∧ (calcular_resumo rows).total = rows.length) := by
  refine ⟨fun code nome rows r _ => mem_facilityFilter, ?_, ⟨by decide, by decide⟩, ?_⟩
  · intro c1 n1 c2 n2 s h1 h2 hp1 hp2
    by_cases heq : (c1, n1) = (c2, n2)
    · exact congrArg Prod.fst heq
    · have hR := List.Pairwise.forall
        (R := fun p q : List Char × List Char => ¬ p.1 <+: q.1 ∧ ¬ q.1 <+: p.1)
        (fun p q hpq => ⟨hpq.2, hpq.1⟩) unidades_sem_colisao h1 h2 heq
      rcases List.prefix_or_prefix_of_prefix hp1 hp2 with hc | hc
      · exact absurd hc hR.1
      · exact absurd hc hR.2
  · intro rows r hr hnone
    refine ⟨?_, ?_⟩
    · intro p hp hmem
      exact hnone p hp (mem_facilityFilter.mp hmem).2
    · unfold calcular_resumo
      by_cases hz : rows.length = 0
      · simp [hz]
      · simp [hz]

/-- C6 witness: the specimen with site code "IRAS10" lands in the record set
of the facility whose code is "IRAS1". -/
theorem c6_unidade_por_codigo_w : esp10 ∈ facilityFilter U_IRAS1 [esp10] :=
  (c6_unidade_por_codigo.1 U_IRAS1 NOME_IRAS1 [esp10] esp10 (by decide)).mpr
    ⟨List.mem_singleton.mpr rfl, by decide⟩

/-! ## Helper lemma for the validation contract -/

theorem faltantes_vazio_iff (t : RawTable) :
    colunasFaltantes t = [] ↔ ∀ c ∈ colunas_obrigatorias, c ∈ t.headers.map normalizeHeader := by
  unfold colunasFaltantes
  rw [List.filter_eq_nil_iff]
  simp

/-- C8: normalization fails exactly when a required column is missing (the
error carries the list of missing column names), when no SARS result alias
is present (its own error kind), or when the input has zero rows (a third,
distinct error kind); on success one record per input row is produced, so no
partial dataset exists. -/
theorem c8_carregar_validacao (t : RawTable) :
    (colunasFaltantes t ≠ [] →
        carregar_dados t = Except.error (ValidationError.colunasFaltando (colunasFaltantes t)))
    ∧ (colunasFaltantes t = [] →
        (∀ c ∈ colunas_sars, ¬ c ∈ t.headers.map normalizeHeader) →
        carregar_dados t = Except.error ValidationError.sarsNaoEncontrada)
    ∧ (∀ sarsCol, colunasFaltantes t = [] →
        colunas_sars.find? (fun c => decide (c ∈ t.headers.map normalizeHeader)) = some sarsCol →
        t.rows = [] → carregar_dados t = Except.error ValidationError.nenhumDado)
    ∧ ((carregar_dados t).isOk = true ↔
        ((∀ c ∈ colunas_obrigatorias, c ∈ t.headers.map normalizeHeader)
         ∧ (∃ c ∈ colunas_sars, c ∈ t.headers.map normalizeHeader)
         ∧ t.rows ≠ []))
    ∧ (∀ out, carregar_dados t = Except.ok out → out.length = t.rows.length) := by
  refine ⟨?_, ?_, ?_, ?_, ?_⟩
  · intro h
    unfold carregar_dados
    rw [if_neg h]
  · intro h hnone
    unfold carregar_dados
    rw [if_pos h]
    have hf : colunas_sars.find? (fun c => decide (c ∈ t.headers.map normalizeHeader)) = none := by
      rw [List.find?_eq_none]
      intro x hx
      simpa using hnone x hx
    rw [hf]
  · intro sarsCol h hfind hrows
    unfold carregar_dados
    rw [if_pos h, hfind, hrows]
    simp
  · constructor
    · intro hok
      unfold carregar_dados at hok
      by_cases h : colunasFaltantes t = []
      · rw [if_pos h] at hok
        cases hfind : colunas_sars.find? (fun c => decide (c ∈ t.headers.map normalizeHeader)) with
        | none =>
          rw [hfind] at hok
          simp [Except.isOk, Except.toBool] at hok
        | some sarsCol =>
          rw [hfind] at hok
          dsimp only at hok
          by_cases hm : t.rows.map (toSpecimen sarsCol) = []
          · rw [if_pos hm] at hok
            simp [Except.isOk, Except.toBool] at hok
          · have hrows : t.rows ≠ [] := fun hh => hm (by rw [hh]; rfl)
            have hmem := List.mem_of_find?_eq_some hfind
            have hp := List.find?_some hfind
            exact ⟨(faltantes_vazio_iff t).mp h, ⟨sarsCol, hmem, of_decide_eq_true hp⟩, hrows⟩
      · rw [if_neg h] at hok
        simp [Except.isOk, Except.toBool] at hok
    · rintro ⟨h1, ⟨c, hc, hc2⟩, h3⟩
      have h : colunasFaltantes t = [] := (faltantes_vazio_iff t).mpr h1
      unfold carregar_dados
      rw [if_pos h]
      cases hfind : colunas_sars.find? (fun c => decide (c ∈ t.headers.map normalizeHeader)) with
      | none =>
        rw [List.find?_eq_none] at hfind
        exact absurd hc2 (by simpa using hfind c hc)
      | some sarsCol =>
        have hm : t.rows.map (toSpecimen sarsCol) ≠ [] := by
          rw [ne_eq, List.map_eq_nil_iff]
          exact h3
        dsimp only
        rw [if_neg hm]
        rfl
  · intro out hout
    unfold carregar_dados at hout
    by_cases h : colunasFaltantes t = []
    · rw [if_pos h] at hout
      cases hfind : colunas_sars.find? (fun c => decide (c ∈ t.headers.map normalizeHeader)) with
      | none =>
        rw [hfind] at hout
        cases hout
      | some sarsCol =>
        rw [hfind] at hout
        dsimp only at hout
        by_cases hm : t.rows.map (toSpecimen sarsCol) = []
        · rw [if_pos hm] at hout
          cases hout
        · rw [if_neg hm] at hout
          injection hout with h2
          rw [← h2, List.length_map]
    · rw [if_neg h] at hout
      cases hout

/-- C8 witness: an upload whose only header is "Sexo" is rejected with the
missing-columns error naming the absent required columns. -/
theorem c8_carregar_validacao_w :
    carregar_dados tSoSexo
      = Except.error (ValidationError.colunasFaltando (colunasFaltantes tSoSexo)) :=
  (c8_carregar_validacao tSoSexo).1 (by decide)

/-- C2 witness: the placeholder "-" is not positive. -/
theorem c2_resultado_positivo_estrito_w : resultadoPositivo TRACO = false :=
  c2_resultado_positivo_estrito.2.1

/-- C7 amended witness: an influenza cell computed from a detail text that
contains "POSITIVO" is emphasised. -/
theorem c7_emphasis_contem_w : emphasisFlag (influenzaCellText POSITIVO_FRACO) = true :=
  (c7_emphasis_contem POSITIVO_FRACO POSITIVO_FRACO).2.mpr (by decide)
